import Mathlib

/-!
Verification of the kyc-package detection core.

Shallow embedding of the detection services and capture pages:
  - src/lib/services/document-detection/index.ts
  - src/lib/services/face-detection/index.ts
  - src/lib/pages/Selfie.svelte
  - src/lib/pages/DocumentPhoto.svelte
  - src/lib/pages/CheckDocument.svelte

Numbers that the source handles as JavaScript floats are modelled as
rationals; the decimal constants of the source are written as exact
fractions (0.15 = 3 / 20, 0.08 = 2 / 25, 0.35 = 7 / 20, 0.85 = 17 / 20,
0.8 = 4 / 5).  The external detection libraries (face-api.js, scanic)
are opaque capabilities; their behaviour is a parameter of the embedded
functions, with an Except layer recording the possibility that a library
call throws.

The Svelte pages compile reactive declarations such as
  $: faceReady = faceDetected && faceCentered && faceFrontal && faceProperSize
into an update function that runs at the next flush (a microtask after
the current synchronous task), not at each assignment.  A handler that
assigns the flag variables and then reads faceReady therefore reads the
value computed from the previous detection result.  The embedding keeps
this behaviour: the component state carries the cached reactive value,
the handler reads the cache, and a flush step recomputes the cache after
the handler returns (the polling loop always yields to the microtask
queue between two deliveries, because each delivery is separated by an
await and a timer).
-/

namespace KycPackage

/-! ## Data model: document detection (src/lib/services/document-detection/index.ts) -/

/-- A point with rational coordinates, as used for document corners. -/
structure Point where
  x : ℚ
  y : ℚ
deriving DecidableEq, Repr

/-- Corner quadrilateral returned by the scanic library. -/
structure ScanCorners where
  topLeft : Point
  topRight : Point
  bottomRight : Point
  bottomLeft : Point
deriving DecidableEq, Repr

/-- Shape of the scanic scanDocument result that detectDocument inspects:
the success flag and the optional corners. -/
structure ScanDocumentResult where
  success : Bool
  corners : Option ScanCorners
deriving DecidableEq, Repr

/-- DocumentDetectionResult from document-detection/index.ts. -/
structure DocumentDetectionResult where
  detected : Bool
  corners : Option ScanCorners
  confidence : Bool
deriving DecidableEq, Repr

/-- The frame source handed to detectDocument: either a live video
element (with its readyState and dimensions) or a canvas or image
element (with its dimensions).  videoToCanvas preserves the video
dimensions, so only the dimensions and the readiness are relevant. -/
inductive DocumentSource where
  | video (readyState : Nat) (videoWidth videoHeight : ℚ)
  | canvasOrImage (width height : ℚ)
deriving DecidableEq, Repr

/-- The all-false result that detectDocument returns on a guard failure,
a failed scan or a library exception. -/
def neutralDocumentResult : DocumentDetectionResult :=
  { detected := false, corners := none, confidence := false }

/-- Body of detectDocument after the video-readiness guard: inspect the
scan outcome (Except.error models a thrown library exception, caught by
the try block), and on success with corners compute the confidence flag
from the corner geometry exactly as the source does. -/
def detectDocumentFromScan (sourceWidth sourceHeight : ℚ)
    (scan : Except Unit ScanDocumentResult) : DocumentDetectionResult :=
  match scan with
  | .error _ => neutralDocumentResult
  | .ok result =>
      match result.corners, result.success with
      | some c, true =>
          let docWidth := max |c.topRight.x - c.topLeft.x| |c.bottomRight.x - c.bottomLeft.x|
          let docHeight := max |c.bottomLeft.y - c.topLeft.y| |c.bottomRight.y - c.topRight.y|
          let docArea := docWidth * docHeight
          let frameArea := sourceWidth * sourceHeight
          let confidence : Bool := decide (docArea / frameArea > 3 / 20)
          { detected := true, corners := some c, confidence := confidence }
      | _, _ => neutralDocumentResult

/-- detectDocument from document-detection/index.ts.  A video source that
is not ready (readyState other than 4) short-circuits to the neutral
result before the library is called. -/
def detectDocument (source : DocumentSource)
    (scan : Except Unit ScanDocumentResult) : DocumentDetectionResult :=
  match source with
  | .video readyState w h =>
      if readyState ≠ 4 then neutralDocumentResult
      else detectDocumentFromScan w h scan
  | .canvasOrImage w h => detectDocumentFromScan w h scan

/-! ## CheckDocument.svelte: tri-state validation display -/

/-- The three validation-message branches of CheckDocument.svelte. -/
inductive ValidationOutcome where
  | success
  | warning
  | failure
deriving DecidableEq, Repr

/-- The template branch structure of the validation message in
CheckDocument.svelte (and identically in DocumentPhoto flow checks):
detected and confidence give success, detected alone gives warning,
otherwise failure. -/
def classifyValidation (r : DocumentDetectionResult) : ValidationOutcome :=
  if r.detected && r.confidence then .success
  else if r.detected then .warning
  else .failure

/-! ## DocumentPhoto.svelte: live feedback and capture button -/

/-- The three branches of the detection indicator in DocumentPhoto.svelte. -/
inductive DocumentFeedback where
  | documentDetected
  | moveCloser
  | positionInFrame
deriving DecidableEq, Repr

/-- Detection-indicator branch selection from DocumentPhoto.svelte:
detected and confidence give the detected message, detected alone gives
the move-closer message, otherwise the position-in-frame message. -/
def documentFeedback (r : DocumentDetectionResult) : DocumentFeedback :=
  if r.detected && r.confidence then .documentDetected
  else if r.detected then .moveCloser
  else .positionInFrame

/-- The isDisabled prop of the CameraButton in DocumentPhoto.svelte:
the isDisabled toggle store ored with the negated detected flag of the
current detection result. -/
def cameraButtonIsDisabled (isDisabledToggle : Bool)
    (r : DocumentDetectionResult) : Bool :=
  isDisabledToggle || !r.detected

/-! ## CheckDocument.svelte: reactive validation guard

The page holds isValidating and validationResult, and the reactive
statement
  $: if (image && !validationResult && !isValidating) \x7b
       isValidating = true; validateDocumentImage(image).then(...) \x7d
runs at each flush.  The resolution of the promise stores the result and
clears isValidating.  startedPasses counts how many underlying detection
passes have been started. -/

/-- State of the validation guard of CheckDocument.svelte. -/
structure ValidationState where
  hasImage : Bool
  isValidating : Bool
  validationResult : Option DocumentDetectionResult
  startedPasses : Nat
deriving DecidableEq, Repr

/-- Events acting on the validation guard: a reactive flush (which runs
the guarded block) and the resolution of a started validation.  A
resolution can only arrive while a validation is pending, which the
step function checks. -/
inductive ValidationEvent where
  | flushGuard
  | resolve (r : DocumentDetectionResult)
deriving DecidableEq, Repr

/-- One step of the validation guard, translated from the reactive block
and the then-callback of CheckDocument.svelte. -/
def validationStep (s : ValidationState) : ValidationEvent → ValidationState
  | .flushGuard =>
      if s.hasImage && s.validationResult.isNone && !s.isValidating then
        { s with isValidating := true, startedPasses := s.startedPasses + 1 }
      else s
  | .resolve r =>
      if s.isValidating then
        { s with validationResult := some r, isValidating := false }
      else s

/-- Run a sequence of validation events. -/
def runValidation (s : ValidationState) (es : List ValidationEvent) : ValidationState :=
  es.foldl validationStep s

/-- State of the page once the captured image is available: nothing
validated yet, no validation pending. -/
def initValidationState : ValidationState :=
  { hasImage := true, isValidating := false, validationResult := none, startedPasses := 0 }

/-! ## Face detection service (src/lib/services/face-detection/index.ts) -/

/-- Bounding box of a detected face. -/
structure Box where
  x : ℚ
  y : ℚ
  width : ℚ
  height : ℚ
deriving DecidableEq, Repr

/-- FaceDetectionResult from face-detection/index.ts. -/
structure FaceDetectionResult where
  detected : Bool
  centered : Bool
  frontal : Bool
  properSize : Bool
  box : Option Box
deriving DecidableEq, Repr

/-- The landmark positions that isFaceFrontal reads from the 68-point
landmark set: indices 0, 16, 30, 36, 39, 42 and 45. -/
structure FaceLandmarks where
  p0 : Point
  p16 : Point
  p30 : Point
  p36 : Point
  p39 : Point
  p42 : Point
  p45 : Point
deriving DecidableEq, Repr

/-- A successful single-face detection of the library: box and landmarks. -/
structure FaceDetection where
  box : Box
  landmarks : FaceLandmarks
deriving DecidableEq, Repr

/-- The properties of the video element that detectFace reads. -/
structure VideoElement where
  readyState : Nat
  videoWidth : ℚ
  videoHeight : ℚ
deriving DecidableEq, Repr

/-- The all-false result that detectFace returns on any guard failure,
missed detection or library exception. -/
def neutralFaceResult : FaceDetectionResult :=
  { detected := false, centered := false, frontal := false, properSize := false, box := none }

/-- isFaceFrontal from face-detection/index.ts.  The source also
computes the y coordinates of the eye centers but never uses them; only
the x coordinates enter the two symmetry checks. -/
def isFaceFrontal (landmarks : FaceLandmarks) (tolerance : ℚ) : Bool :=
  let leftEyeCenterX := (landmarks.p36.x + landmarks.p39.x) / 2
  let rightEyeCenterX := (landmarks.p42.x + landmarks.p45.x) / 2
  let noseTipX := landmarks.p30.x
  let eyeMidpointX := (leftEyeCenterX + rightEyeCenterX) / 2
  let eyeDistance := |rightEyeCenterX - leftEyeCenterX|
  let noseOffsetFromCenter := |noseTipX - eyeMidpointX|
  let noseFraction := noseOffsetFromCenter / eyeDistance
  let leftDistance := |noseTipX - landmarks.p0.x|
  let rightDistance := |landmarks.p16.x - noseTipX|
  let contourFraction := |leftDistance - rightDistance| / (leftDistance + rightDistance)
  decide (noseFraction < tolerance) && decide (contourFraction < tolerance)

/-- detectFace from face-detection/index.ts.  The library call is a
parameter: Except.error models a thrown exception (caught by the try
block), ok none a missed detection, ok some a detection with box and
landmarks.  The call sites use the default centerTolerance 0.08 = 2 / 25
and isFaceFrontal runs with its default tolerance 0.15 = 3 / 20. -/
def detectFace (modelsLoaded : Bool) (video : VideoElement)
    (library : Except Unit (Option FaceDetection))
    (centerTolerance : ℚ) : FaceDetectionResult :=
  if !modelsLoaded then neutralFaceResult
  else if video.readyState ≠ 4 then neutralFaceResult
  else
    match library with
    | .error _ => neutralFaceResult
    | .ok none => neutralFaceResult
    | .ok (some detection) =>
        let box := detection.box
        let videoWidth := video.videoWidth
        let videoHeight := video.videoHeight
        let overlayWidth := videoWidth * (4 / 5)
        let overlayHeight := overlayWidth * (4 / 3)
        let overlayCenterX := videoWidth / 2
        let overlayCenterY := videoHeight / 2
        let faceCenterX := box.x + box.width / 2
        let faceCenterY := box.y + box.height / 2
        let xOffset := |faceCenterX - overlayCenterX| / overlayWidth
        let yOffset := |faceCenterY - overlayCenterY| / overlayHeight
        let centered := decide (xOffset < centerTolerance) && decide (yOffset < centerTolerance)
        let frontal := isFaceFrontal detection.landmarks (3 / 20)
        let faceOverlayFraction := box.width / overlayWidth
        let properSize :=
          decide (faceOverlayFraction ≥ 7 / 20) && decide (faceOverlayFraction ≤ 17 / 20)
        { detected := true, centered := centered, frontal := frontal,
          properSize := properSize, box := some box }

/-! ## Polling loop controller

createFaceDetectionLoop and createDocumentDetectionLoop share the same
structure:

  let isRunning = true; let timeoutId;
  const runDetection = async () => \x7b
    if (!isRunning) return;
    const result = await detect(video);
    if (isRunning) \x7b onResult(result); timeoutId = setTimeout(runDetection, intervalMs); \x7d
  \x7d;
  runDetection();
  return () => \x7b isRunning = false; if (timeoutId) clearTimeout(timeoutId); \x7d;

The loop is modelled in two complementary ways.  First, an event-level
state machine records the running flag, whether a timeout is scheduled,
whether a detector call is in flight, and how many results have been
delivered to onResult.  Second, an invocation-time function records the
real-time schedule: each iteration awaits the completion of its detector
call and the next invocation happens intervalMs after that completion. -/

/-- Observable state of one detection loop instance. -/
structure LoopState where
  running : Bool
  pendingTimeout : Bool
  inFlight : Bool
  delivered : Nat
deriving DecidableEq, Repr

/-- Events acting on a detection loop: the scheduled timeout fires (the
entry of runDetection), the in-flight detector call completes (the code
after the await), or the cleanup function is called. -/
inductive LoopEvent where
  | timerFire
  | complete
  | stop
deriving DecidableEq, Repr

/-- One step of the loop state machine, translated from the body of
createFaceDetectionLoop.  A timeout firing starts a detector call only
when the loop is still running (the entry check of runDetection); a
completion delivers the result and schedules the next timeout only when
the loop is still running (the check after the await); the cleanup
function clears the running flag and cancels the scheduled timeout. -/
def loopStep (s : LoopState) : LoopEvent → LoopState
  | .timerFire =>
      if s.pendingTimeout then
        if s.running then { s with pendingTimeout := false, inFlight := true }
        else { s with pendingTimeout := false }
      else s
  | .complete =>
      if s.inFlight then
        if s.running then
          { s with inFlight := false, delivered := s.delivered + 1, pendingTimeout := true }
        else { s with inFlight := false }
      else s
  | .stop => { s with running := false, pendingTimeout := false }

/-- Run a sequence of loop events. -/
def runLoop (s : LoopState) (es : List LoopEvent) : LoopState :=
  es.foldl loopStep s

/-- State right after createFaceDetectionLoop returns: runDetection was
called synchronously, so the first detector call is already in flight. -/
def initLoopState : LoopState :=
  { running := true, pendingTimeout := false, inFlight := true, delivered := 0 }

/-- Invocation times of the detector calls of a loop that is never
stopped: the first call happens at time 0, and because the body awaits
the completion of each call and then schedules the next via
setTimeout(runDetection, intervalMs), call n + 1 starts intervalMs after
call n completed, where callDuration n is the latency of call n. -/
def loopInvocationTime (intervalMs : Nat) (callDuration : Nat → Nat) : Nat → Nat
  | 0 => 0
  | n + 1 => loopInvocationTime intervalMs callDuration n + callDuration n + intervalMs

/-! ## Selfie.svelte: stability accumulator and auto-capture -/

/-- Auto-capture constants of Selfie.svelte. -/
def DETECTION_INTERVAL_MS : Nat := 250

/-- Stable duration in seconds (COUNTDOWN_SECONDS in the source). -/
def COUNTDOWN_SECONDS : Nat := 5

/-- Frames per second of the detection loop; 1000 / 250 = 4 exactly, so
natural division agrees with the JavaScript float division here. -/
def FRAMES_PER_SECOND : Nat := 1000 / DETECTION_INTERVAL_MS

/-- Required number of consecutive stable frames before auto-capture. -/
def REQUIRED_STABLE_FRAMES : Nat := COUNTDOWN_SECONDS * FRAMES_PER_SECOND

/-- Math.ceil (a / b) for integers a and b with b positive, as evaluated
by JavaScript on the integral float values that reach this expression in
the source (framesRemaining / FRAMES_PER_SECOND). -/
def jsMathCeilDiv (a b : Int) : Int := -(Int.ediv (-a) b)

/-- Component state of Selfie.svelte as far as the detection flow reads
and writes it.  faceReady caches the reactive declaration
faceDetected && faceCentered && faceFrontal && faceProperSize, which is
recomputed at flush time, not at assignment time.  isDisabled models the
isDisabled toggle store (synchronous, true until the camera stream is
ready and again after a capture), cameraPresent models cameraPhoto being
set, and captureCount counts executions of the capture body (getDataUri
followed by navigation). -/
structure SelfieState where
  faceDetected : Bool
  faceCentered : Bool
  faceFrontal : Bool
  faceProperSize : Bool
  faceReady : Bool
  stableFrames : Nat
  countdown : Int
  isCapturing : Bool
  isDisabled : Bool
  cameraPresent : Bool
  captureCount : Nat
deriving DecidableEq, Repr

/-- handleTakePhoto from Selfie.svelte as a state transformer: the guard
returns unchanged state when the camera is absent, the button toggle is
disabled or a capture is already in progress; otherwise it sets
isCapturing, performs the capture, and finally re-disables the toggle.
Stopping the detection loop has no effect on this state; the emission
order is recorded by handleTakePhotoActions. -/
def handleTakePhoto (s : SelfieState) : SelfieState :=
  if !s.cameraPresent || s.isDisabled || s.isCapturing then s
  else { s with isCapturing := true, captureCount := s.captureCount + 1, isDisabled := true }

/-- The externally visible actions of one handleTakePhoto call, in the
order the source performs them: set isCapturing, stop the detection
loop, capture the photo and navigate, disable the button toggle. -/
inductive TakePhotoAction where
  | setIsCapturing
  | stopDetectionLoop
  | captureAndNavigate
  | disableButton
deriving DecidableEq, Repr

/-- Action sequence emitted by handleTakePhoto: empty when the guard
rejects the call, otherwise the four actions in source order. -/
def handleTakePhotoActions (s : SelfieState) : List TakePhotoAction :=
  if !s.cameraPresent || s.isDisabled || s.isCapturing then []
  else [.setIsCapturing, .stopDetectionLoop, .captureAndNavigate, .disableButton]

/-- handleFaceDetectionResult from Selfie.svelte.  The handler first
returns when isCapturing is set, then assigns the four flag variables,
and then reads faceReady.  Because the reactive declaration for
faceReady only reruns at the next flush, the read still sees the value
computed from the previous detection result; the embedding reflects this
by reading the cached field, which the flag assignments do not touch. -/
def handleFaceDetectionResult (s : SelfieState) (result : FaceDetectionResult) : SelfieState :=
  if s.isCapturing then s
  else
    let s1 := { s with
      faceDetected := result.detected,
      faceCentered := result.centered,
      faceFrontal := result.frontal,
      faceProperSize := result.properSize }
    if s1.faceReady then
      let stable := s1.stableFrames + 1
      let framesRemaining : Int := (REQUIRED_STABLE_FRAMES : Int) - (stable : Int)
      let secondsRemaining : Int := jsMathCeilDiv framesRemaining (FRAMES_PER_SECOND : Int)
      let s2 := { s1 with stableFrames := stable, countdown := secondsRemaining }
      if stable ≥ REQUIRED_STABLE_FRAMES then
        handleTakePhoto { s2 with countdown := 0 }
      else s2
    else { s1 with stableFrames := 0, countdown := 0 }

/-- The flush that Svelte schedules after the handler returns: rerun the
reactive declaration and cache the composite predicate. -/
def flushReactive (s : SelfieState) : SelfieState :=
  { s with faceReady := s.faceDetected && s.faceCentered && s.faceFrontal && s.faceProperSize }

/-- Delivery of one detection result: the handler runs synchronously,
then the microtask flush recomputes faceReady before the loop can
deliver the next result. -/
def deliverResult (s : SelfieState) (r : FaceDetectionResult) : SelfieState :=
  flushReactive (handleFaceDetectionResult s r)

/-- Deliver a finite sequence of detection results in order. -/
def processResults (s : SelfieState) (rs : List FaceDetectionResult) : SelfieState :=
  rs.foldl deliverResult s

/-- Component state at the point where the detection loop starts: the
camera stream is ready (so the toggle was switched off and cameraPhoto
is set), no frame seen yet, reactive cache initialised from the all
false flags. -/
def initSelfieState : SelfieState :=
  { faceDetected := false, faceCentered := false, faceFrontal := false,
    faceProperSize := false, faceReady := false, stableFrames := 0,
    countdown := 0, isCapturing := false, isDisabled := false,
    cameraPresent := true, captureCount := 0 }

/-- Composite predicate of the selfie flow on one detection result, as
the reactive declaration computes it from the flag variables. -/
def faceComposite (r : FaceDetectionResult) : Bool :=
  r.detected && r.centered && r.frontal && r.properSize

/-- Length of the longest suffix of a result sequence in which every
result satisfies the composite predicate (the quantity named by the
hard-reset law of the specification). -/
def longestTrueSuffixLen (rs : List FaceDetectionResult) : Nat :=
  (rs.reverse.takeWhile faceComposite).length

/-- Composite value of the last result of a sequence, false for the
empty sequence; this is the value the reactive cache holds after the
sequence has been delivered and flushed. -/
def lastComposite (rs : List FaceDetectionResult) : Bool :=
  match rs.getLast? with
  | none => false
  | some r => faceComposite r

/-- A detection result meeting all four criteria. -/
def allCriteriaResult : FaceDetectionResult :=
  { detected := true, centered := true, frontal := true, properSize := true, box := none }

/-- The component state reached after the capture has fired on an
uninterrupted all-criteria stream: flags and cache true, counter frozen
at the threshold, capture performed exactly once, toggle re-disabled. -/
def capturedSelfieState : SelfieState :=
  { faceDetected := true, faceCentered := true, faceFrontal := true,
    faceProperSize := true, faceReady := true, stableFrames := 20,
    countdown := 0, isCapturing := true, isDisabled := true,
    cameraPresent := true, captureCount := 1 }

/-- Invariant of the validation guard: at most one detection pass has
started, a pending validation has no stored result yet, and as long as
nothing is pending and nothing is stored no pass has started. -/
def validationInv (s : ValidationState) : Prop :=
  s.startedPasses ≤ 1 ∧
  (s.isValidating = true → s.validationResult = none) ∧
  (s.isValidating = false → s.validationResult = none → s.startedPasses = 0)

/-! ## Helper lemmas -/

theorem processResults_append (s : SelfieState) (rs ts : List FaceDetectionResult) :
    processResults s (rs ++ ts) = processResults (processResults s rs) ts := by
  simp [processResults, List.foldl_append]

theorem validationStep_inv (s : ValidationState) (e : ValidationEvent)
    (h : validationInv s) : validationInv (validationStep s e) := by
  obtain ⟨h1, h2, h3⟩ := h
  cases e with
  | flushGuard =>
      by_cases hg : s.hasImage && s.validationResult.isNone && !s.isValidating
      · simp only [Bool.and_eq_true, Bool.not_eq_true', Option.isNone_iff_eq_none] at hg
        obtain ⟨⟨himg, hres⟩, hval⟩ := hg
        have h0 : s.startedPasses = 0 := h3 hval hres
        simp [validationStep, validationInv, himg, hres, hval, h0]
      · simpa [validationStep, hg] using ⟨h1, h2, h3⟩
  | resolve r =>
      by_cases hv : s.isValidating
      · simp [validationStep, validationInv, hv, h1]
      · simpa [validationStep, hv] using ⟨h1, h2, h3⟩

theorem runValidation_inv (es : List ValidationEvent) (s : ValidationState)
    (h : validationInv s) : validationInv (runValidation s es) := by
  induction es generalizing s with
  | nil => simpa [runValidation] using h
  | cons e es ih =>
      have := validationStep_inv s e h
      simpa [runValidation, List.foldl_cons] using ih _ this

theorem validationStep_keeps_result (s : ValidationState) (e : ValidationEvent)
    (hinv : validationInv s) (r : DocumentDetectionResult)
    (h : s.validationResult = some r) : (validationStep s e).validationResult = some r := by
  cases e with
  | flushGuard =>
      have hnone : s.validationResult.isNone = false := by simp [h]
      simp [validationStep, hnone, h]
  | resolve q =>
      have hv : s.isValidating = false := by
        by_contra hv
        have := hinv.2.1 (by simpa using hv)
        simp [h] at this
      simp [validationStep, hv]
      exact h

theorem runValidation_keeps_result (es : List ValidationEvent) (s : ValidationState)
    (hinv : validationInv s) (r : DocumentDetectionResult)
    (h : s.validationResult = some r) : (runValidation s es).validationResult = some r := by
  induction es generalizing s with
  | nil => simpa [runValidation] using h
  | cons e es ih =>
      have hkeep := validationStep_keeps_result s e hinv r h
      have hinv2 := validationStep_inv s e hinv
      simpa [runValidation, List.foldl_cons] using ih _ hinv2 hkeep

theorem loopStep_serial (s : LoopState) (e : LoopEvent)
    (_h : (s.inFlight && s.pendingTimeout) = false) :
    ((loopStep s e).inFlight && (loopStep s e).pendingTimeout) = false := by
  cases e with
  | timerFire =>
      by_cases hp : s.pendingTimeout
      · by_cases hr : s.running <;> simp [loopStep, hp, hr]
      · simp [loopStep, hp]
  | complete =>
      by_cases hf : s.inFlight
      · by_cases hr : s.running <;> simp [loopStep, hf, hr]
      · simp [loopStep, hf, _h]
  | stop => simp [loopStep]

theorem runLoop_serial (es : List LoopEvent) (s : LoopState)
    (h : (s.inFlight && s.pendingTimeout) = false) :
    ((runLoop s es).inFlight && (runLoop s es).pendingTimeout) = false := by
  induction es generalizing s with
  | nil => simpa [runLoop] using h
  | cons e es ih =>
      simpa [runLoop, List.foldl_cons] using ih _ (loopStep_serial s e h)

theorem loopStep_stopped (s : LoopState) (e : LoopEvent)
    (hr : s.running = false) (hp : s.pendingTimeout = false) :
    (loopStep s e).running = false ∧ (loopStep s e).pendingTimeout = false ∧
      (loopStep s e).delivered = s.delivered := by
  cases e with
  | timerFire => simp [loopStep, hp, hr]
  | complete =>
      by_cases hf : s.inFlight <;> simp [loopStep, hf, hr, hp]
  | stop => simp [loopStep]

theorem runLoop_stopped (es : List LoopEvent) (s : LoopState)
    (hr : s.running = false) (hp : s.pendingTimeout = false) :
    (runLoop s es).running = false ∧ (runLoop s es).pendingTimeout = false ∧
      (runLoop s es).delivered = s.delivered := by
  induction es generalizing s with
  | nil => simp [runLoop, hr, hp]
  | cons e es ih =>
      obtain ⟨h1, h2, h3⟩ := loopStep_stopped s e hr hp
      have := ih _ h1 h2
      simpa [runLoop, List.foldl_cons, h3] using this

theorem longestTrueSuffixLen_concat (l : List FaceDetectionResult) (b : FaceDetectionResult) :
    longestTrueSuffixLen (l ++ [b]) =
      if faceComposite b then longestTrueSuffixLen l + 1 else 0 := by
  by_cases h : faceComposite b <;>
    simp [longestTrueSuffixLen, List.reverse_append, List.takeWhile_cons, h]

theorem lastComposite_concat (l : List FaceDetectionResult) (b : FaceDetectionResult) :
    lastComposite (l ++ [b]) = faceComposite b := by
  simp [lastComposite, List.getLast?_concat]

theorem longestTrueSuffixLen_eq (l : List FaceDetectionResult) :
    longestTrueSuffixLen l =
      if lastComposite l then longestTrueSuffixLen l.dropLast + 1 else 0 := by
  induction l using List.reverseRecOn with
  | nil => simp [longestTrueSuffixLen, lastComposite]
  | append_singleton l b _ =>
      rw [longestTrueSuffixLen_concat, lastComposite_concat, List.dropLast_concat]

theorem deliverResult_isCapturing_mono (s : SelfieState) (r : FaceDetectionResult)
    (h : s.isCapturing = true) : (deliverResult s r).isCapturing = true := by
  simp [deliverResult, handleFaceDetectionResult, h, flushReactive]

theorem processResults_isCapturing_mono (rs : List FaceDetectionResult) (s : SelfieState)
    (h : s.isCapturing = true) : (processResults s rs).isCapturing = true := by
  induction rs generalizing s with
  | nil => simpa [processResults] using h
  | cons r rs ih =>
      simpa [processResults] using ih _ (deliverResult_isCapturing_mono s r h)

theorem handleFaceDetectionResult_flags (s : SelfieState) (r : FaceDetectionResult)
    (hcap : s.isCapturing = false) :
    (handleFaceDetectionResult s r).faceDetected = r.detected ∧
    (handleFaceDetectionResult s r).faceCentered = r.centered ∧
    (handleFaceDetectionResult s r).faceFrontal = r.frontal ∧
    (handleFaceDetectionResult s r).faceProperSize = r.properSize := by
  obtain ⟨fd, fc, ff, fp, fr, sf, cd, cap, dis, cam, cc⟩ := s
  simp only at hcap
  subst hcap
  simp only [handleFaceDetectionResult, handleTakePhoto]
  split_ifs <;> simp_all

theorem deliverResult_faceReady (s : SelfieState) (r : FaceDetectionResult)
    (hcap : s.isCapturing = false) :
    (deliverResult s r).faceReady = faceComposite r := by
  obtain ⟨h1, h2, h3, h4⟩ := handleFaceDetectionResult_flags s r hcap
  simp [deliverResult, flushReactive, h1, h2, h3, h4, faceComposite]

theorem deliverResult_fires (s : SelfieState) (r : FaceDetectionResult)
    (hcap : s.isCapturing = false) (hcam : s.cameraPresent = true)
    (hdis : s.isDisabled = false) (hfr : s.faceReady = true)
    (hst : REQUIRED_STABLE_FRAMES ≤ s.stableFrames + 1) :
    (deliverResult s r).isCapturing = true := by
  obtain ⟨fd, fc, ff, fp, frd, sf, cd, cap, dis, cam, cc⟩ := s
  simp only at hcap hcam hdis hfr hst
  subst hcap; subst hcam; subst hdis; subst hfr
  simp [deliverResult, handleFaceDetectionResult, handleTakePhoto, flushReactive, hst]

theorem deliverResult_no_fire (s : SelfieState) (r : FaceDetectionResult)
    (hcap : s.isCapturing = false) (hfr : s.faceReady = true)
    (hlt : s.stableFrames + 1 < REQUIRED_STABLE_FRAMES) :
    (deliverResult s r).stableFrames = s.stableFrames + 1 ∧
    (deliverResult s r).isDisabled = s.isDisabled ∧
    (deliverResult s r).cameraPresent = s.cameraPresent := by
  obtain ⟨fd, fc, ff, fp, frd, sf, cd, cap, dis, cam, cc⟩ := s
  simp only at hcap hfr hlt
  subst hcap; subst hfr
  simp [deliverResult, handleFaceDetectionResult, flushReactive, Nat.not_le.mpr hlt]

theorem deliverResult_reset (s : SelfieState) (r : FaceDetectionResult)
    (hcap : s.isCapturing = false) (hfr : s.faceReady = false) :
    (deliverResult s r).stableFrames = 0 ∧
    (deliverResult s r).isDisabled = s.isDisabled ∧
    (deliverResult s r).cameraPresent = s.cameraPresent := by
  obtain ⟨fd, fc, ff, fp, frd, sf, cd, cap, dis, cam, cc⟩ := s
  simp only at hcap hfr
  subst hcap; subst hfr
  simp [deliverResult, handleFaceDetectionResult, flushReactive]

theorem processResults_lag_law (rs : List FaceDetectionResult)
    (hfin : (processResults initSelfieState rs).isCapturing = false) :
    (processResults initSelfieState rs).stableFrames = longestTrueSuffixLen rs.dropLast ∧
    (processResults initSelfieState rs).faceReady = lastComposite rs ∧
    (processResults initSelfieState rs).isDisabled = false ∧
    (processResults initSelfieState rs).cameraPresent = true := by
  induction rs using List.reverseRecOn with
  | nil =>
      simp [processResults, initSelfieState, longestTrueSuffixLen, lastComposite]
  | append_singleton l a ih =>
      have heq : processResults initSelfieState (l ++ [a])
          = deliverResult (processResults initSelfieState l) a := by
        rw [processResults_append]; rfl
      rw [heq] at hfin ⊢
      have hcap : (processResults initSelfieState l).isCapturing = false := by
        cases hc : (processResults initSelfieState l).isCapturing with
        | false => rfl
        | true =>
            rw [deliverResult_isCapturing_mono _ a hc] at hfin
            simp at hfin
      obtain ⟨ihs, ihf, ihd, ihc⟩ := ih hcap
      rw [List.dropLast_concat, lastComposite_concat, longestTrueSuffixLen_eq l, ← ihf, ← ihs]
      by_cases hfr : (processResults initSelfieState l).faceReady
      · by_cases hst :
          REQUIRED_STABLE_FRAMES ≤ (processResults initSelfieState l).stableFrames + 1
        · exact absurd hfin
            (by rw [deliverResult_fires _ a hcap ihc ihd hfr hst]; simp)
        · obtain ⟨e1, e2, e3⟩ :=
            deliverResult_no_fire (processResults initSelfieState l) a hcap hfr
              (Nat.not_le.mp hst)
          refine ⟨?_, deliverResult_faceReady _ a hcap, e2.trans ihd, e3.trans ihc⟩
          rw [e1, hfr]
          simp
      · obtain ⟨e1, e2, e3⟩ :=
          deliverResult_reset (processResults initSelfieState l) a hcap
            (Bool.not_eq_true _ |>.mp hfr)
        refine ⟨?_, deliverResult_faceReady _ a hcap, e2.trans ihd, e3.trans ihc⟩
        rw [e1, Bool.not_eq_true _ |>.mp hfr]
        simp

theorem allTrue_captured (n : Nat) (hn : 21 ≤ n) :
    processResults initSelfieState (List.replicate n allCriteriaResult)
      = capturedSelfieState := by
  induction n with
  | zero => omega
  | succ m ih =>
      rcases Nat.lt_or_ge m 21 with hlt | hge
      · have h21 : m + 1 = 21 := by omega
        rw [h21]
        decide
      · rw [List.replicate_succ', processResults_append, ih hge]
        decide

/-! ## Claim theorems -/

/-- C3: detector calls of a loop are strictly serialized.  The state
machine of createFaceDetectionLoop and createDocumentDetectionLoop never
has a call in flight and a next tick scheduled at the same time, each
invocation starts exactly callDuration n + intervalMs after the previous
invocation (that is, intervalMs after the previous completion, so calls
never overlap), and with intervalMs = 250 and a constant 600 ms detector
latency the spacing of consecutive invocations is 850 ms, which is at
least 600 ms. -/
theorem C3_serialized_polling :
    (∀ (intervalMs : Nat) (callDuration : Nat → Nat) (n : Nat),
      loopInvocationTime intervalMs callDuration n + callDuration n ≤
        loopInvocationTime intervalMs callDuration (n + 1) ∧
      loopInvocationTime intervalMs callDuration (n + 1) =
        loopInvocationTime intervalMs callDuration n + callDuration n + intervalMs) ∧
    (∀ es : List LoopEvent,
      ((runLoop initLoopState es).inFlight && (runLoop initLoopState es).pendingTimeout)
        = false) ∧
    (∀ n : Nat,
      loopInvocationTime 250 (fun _ => 600) (n + 1) -
          loopInvocationTime 250 (fun _ => 600) n = 850 ∧
      600 ≤ loopInvocationTime 250 (fun _ => 600) (n + 1) -
          loopInvocationTime 250 (fun _ => 600) n) := by
  refine ⟨fun intervalMs d n => ?_, fun es => ?_, fun n => ?_⟩
  · simp [loopInvocationTime]
  · exact runLoop_serial es initLoopState (by simp [initLoopState])
  · simp only [loopInvocationTime]
    omega

/-- C4: once the cleanup function has run, no further result is
delivered to onResult (the delivered counter never changes again, even
when the completion of an in-flight detector call arrives), no further
iteration is scheduled (pendingTimeout stays false and running stays
false), and running the cleanup a second time is a no-op. -/
theorem C4_stop_suppresses :
    ∀ (s : LoopState) (es : List LoopEvent),
      (runLoop (loopStep s .stop) es).delivered = s.delivered ∧
      (runLoop (loopStep s .stop) es).running = false ∧
      (runLoop (loopStep s .stop) es).pendingTimeout = false ∧
      loopStep (loopStep s .stop) .stop = loopStep s .stop := by
  intro s es
  have h := runLoop_stopped es (loopStep s .stop) (by simp [loopStep]) (by simp [loopStep])
  exact ⟨h.2.2.trans (by simp [loopStep]), h.1, h.2.1, rfl⟩

/-- C5 counterexample: a frame whose scan succeeds with corners covering
only 1 percent of a 100 by 100 frame yields detected = true and
confidence = false; the detection indicator shows the move-closer
branch, but the capture button is NOT disabled (with the toggle store
enabled), because the button is gated on the detected flag alone. -/
theorem C5_counterexample :
    (detectDocument (.canvasOrImage 100 100)
        (.ok { success := true,
               corners := some ⟨⟨0, 0⟩, ⟨10, 0⟩, ⟨10, 10⟩, ⟨0, 10⟩⟩ })).detected = true ∧
    (detectDocument (.canvasOrImage 100 100)
        (.ok { success := true,
               corners := some ⟨⟨0, 0⟩, ⟨10, 0⟩, ⟨10, 10⟩, ⟨0, 10⟩⟩ })).confidence = false ∧
    documentFeedback (detectDocument (.canvasOrImage 100 100)
        (.ok { success := true,
               corners := some ⟨⟨0, 0⟩, ⟨10, 0⟩, ⟨10, 10⟩, ⟨0, 10⟩⟩ })) = .moveCloser ∧
    cameraButtonIsDisabled false (detectDocument (.canvasOrImage 100 100)
        (.ok { success := true,
               corners := some ⟨⟨0, 0⟩, ⟨10, 0⟩, ⟨10, 10⟩, ⟨0, 10⟩⟩ })) = false := by
  norm_num [detectDocument, detectDocumentFromScan, documentFeedback, cameraButtonIsDisabled]

/-- C5 amended: a detected-but-low-confidence result maps to the
move-closer feedback branch, but the capture button stays enabled: the
enable-capture signal of DocumentPhoto.svelte is the detected flag alone
(the button is disabled exactly when the toggle store is disabled or no
document is detected), not the composite predicate. -/
theorem C5_amended :
    ∀ r : DocumentDetectionResult,
      (r.detected = true → r.confidence = false →
        documentFeedback r = .moveCloser ∧ cameraButtonIsDisabled false r = false) ∧
      (∀ t : Bool, cameraButtonIsDisabled t r = false ↔ (t = false ∧ r.detected = true)) := by
  rintro ⟨d, cor, conf⟩
  constructor
  · rintro rfl rfl
    simp [documentFeedback, cameraButtonIsDisabled]
  · intro t
    cases d <;> cases t <;> simp [cameraButtonIsDisabled]

/-- C5 witness: the amended theorem applied to the counterexample frame. -/
theorem C5_amended_witness :
    documentFeedback (detectDocument (.canvasOrImage 100 100)
        (.ok { success := true,
               corners := some ⟨⟨0, 0⟩, ⟨10, 0⟩, ⟨10, 10⟩, ⟨0, 10⟩⟩ })) = .moveCloser ∧
    cameraButtonIsDisabled false (detectDocument (.canvasOrImage 100 100)
        (.ok { success := true,
               corners := some ⟨⟨0, 0⟩, ⟨10, 0⟩, ⟨10, 10⟩, ⟨0, 10⟩⟩ })) = false :=
  (C5_amended _).1 (by norm_num [detectDocument, detectDocumentFromScan])
    (by norm_num [detectDocument, detectDocumentFromScan])

/-- C7: the reactive validation guard of CheckDocument.svelte starts at
most one underlying detection pass for the captured image no matter how
many flushes and resolutions occur, and once a validation outcome is
stored every later observation sees that same outcome. -/
theorem C7_validation_collapses :
    ∀ es : List ValidationEvent,
      (runValidation initValidationState es).startedPasses ≤ 1 ∧
      (∀ (r : DocumentDetectionResult) (more : List ValidationEvent),
        (runValidation initValidationState es).validationResult = some r →
        (runValidation (runValidation initValidationState es) more).validationResult
          = some r) := by
  intro es
  have hinv : validationInv (runValidation initValidationState es) :=
    runValidation_inv es initValidationState (by simp [validationInv, initValidationState])
  exact ⟨hinv.1, fun r more h => runValidation_keeps_result more _ hinv r h⟩

/-- C7 witness: one flush starts the single pass, its resolution stores
the outcome, and a further flush leaves the stored outcome unchanged. -/
theorem C7_validation_collapses_witness :
    (runValidation initValidationState
      [ValidationEvent.flushGuard, ValidationEvent.resolve neutralDocumentResult]).startedPasses
        ≤ 1 ∧
    (runValidation (runValidation initValidationState
        [ValidationEvent.flushGuard, ValidationEvent.resolve neutralDocumentResult])
        [ValidationEvent.flushGuard]).validationResult = some neutralDocumentResult :=
  ⟨(C7_validation_collapses _).1,
   (C7_validation_collapses _).2 neutralDocumentResult [ValidationEvent.flushGuard] (by decide)⟩

/-- C8: the displayed validation message is success exactly when
detected and confidence both hold, warning exactly when detected holds
and confidence fails, and failure exactly when detected fails; the three
cases are mutually exclusive and exhaustive by these equivalences. -/
theorem C8_validation_tristate :
    ∀ r : DocumentDetectionResult,
      (classifyValidation r = .success ↔ (r.detected = true ∧ r.confidence = true)) ∧
      (classifyValidation r = .warning ↔ (r.detected = true ∧ r.confidence = false)) ∧
      (classifyValidation r = .failure ↔ r.detected = false) := by
  rintro ⟨d, cor, conf⟩
  cases d <;> cases conf <;> simp [classifyValidation]

/-- C10: when the scan succeeds with corners, detectDocument reports
detected = true with those corners and sets confidence exactly when the
corner-derived document area divided by the frame area exceeds 3 / 20;
for a frame of positive area this is equivalent to the document area
exceeding 15 percent of the frame area; and a scan without success or
without corners yields the all-false result. -/
theorem C10_document_confidence :
    (∀ (w h : ℚ) (c : ScanCorners),
      (detectDocument (.canvasOrImage w h)
          (.ok { success := true, corners := some c })).detected = true ∧
      (detectDocument (.canvasOrImage w h)
          (.ok { success := true, corners := some c })).corners = some c ∧
      ((detectDocument (.canvasOrImage w h)
          (.ok { success := true, corners := some c })).confidence = true ↔
        max |c.topRight.x - c.topLeft.x| |c.bottomRight.x - c.bottomLeft.x| *
            max |c.bottomLeft.y - c.topLeft.y| |c.bottomRight.y - c.topRight.y| / (w * h)
          > 3 / 20)) ∧
    (∀ (w h : ℚ) (c : ScanCorners), 0 < w * h →
      ((detectDocument (.canvasOrImage w h)
          (.ok { success := true, corners := some c })).confidence = true ↔
        max |c.topRight.x - c.topLeft.x| |c.bottomRight.x - c.bottomLeft.x| *
            max |c.bottomLeft.y - c.topLeft.y| |c.bottomRight.y - c.topRight.y|
          > 3 / 20 * (w * h))) ∧
    (∀ (w h : ℚ) (res : ScanDocumentResult), res.success = false ∨ res.corners = none →
      detectDocument (.canvasOrImage w h) (.ok res) = neutralDocumentResult) := by
  refine ⟨fun w h c => ⟨rfl, rfl, ?_⟩, fun w h c hwh => ?_, fun w h res hres => ?_⟩
  · simp [detectDocument, detectDocumentFromScan]
  · rw [show (detectDocument (.canvasOrImage w h)
          (.ok { success := true, corners := some c })).confidence
        = decide (max |c.topRight.x - c.topLeft.x| |c.bottomRight.x - c.bottomLeft.x| *
            max |c.bottomLeft.y - c.topLeft.y| |c.bottomRight.y - c.topRight.y| / (w * h)
          > 3 / 20) from rfl]
    rw [decide_eq_true_eq, gt_iff_lt, lt_div_iff₀ hwh, gt_iff_lt, mul_comm (3 / 20 : ℚ)]
  · obtain ⟨su, cor⟩ := res
    rcases hres with hres | hres
    · cases hres
      cases cor <;> simp [detectDocument, detectDocumentFromScan]
    · cases hres
      cases su <;> simp [detectDocument, detectDocumentFromScan]

/-- C10 witness: a scan covering the whole 2 by 2 frame is confident,
and a failed scan yields the all-false result. -/
theorem C10_document_confidence_witness :
    (0 : ℚ) < 2 * 2 ∧
    ((detectDocument (.canvasOrImage 2 2)
        (.ok { success := true,
               corners := some ⟨⟨0, 0⟩, ⟨2, 0⟩, ⟨2, 2⟩, ⟨0, 2⟩⟩ })).confidence = true) ∧
    detectDocument (.canvasOrImage 2 2) (.ok { success := false, corners := none })
      = neutralDocumentResult :=
  ⟨by norm_num,
   (C10_document_confidence.2.1 2 2 ⟨⟨0, 0⟩, ⟨2, 0⟩, ⟨2, 2⟩, ⟨0, 2⟩⟩ (by norm_num)).mpr
     (by norm_num),
   C10_document_confidence.2.2 2 2 { success := false, corners := none } (Or.inl rfl)⟩

/-- C1 counterexample: on an all-composite-true stream the capture
action has NOT been invoked after the 20th successful result (the
reactive cache for faceReady lags one frame behind, so the counter is
only 19 then); the single invocation happens on the 21st result. -/
theorem C1_counterexample :
    (processResults initSelfieState (List.replicate 20 allCriteriaResult)).captureCount = 0 ∧
    (processResults initSelfieState (List.replicate 20 allCriteriaResult)).stableFrames = 19 ∧
    (processResults initSelfieState (List.replicate 21 allCriteriaResult)).captureCount = 1 := by
  decide

/-- C1 amended: on an all-composite-true stream the capture action fires
exactly once, on the 21st result (never earlier, and never again no
matter how many further results arrive), because the reactive faceReady
cache lags one delivery behind the flag assignments; the firing sets
isCapturing before stopping the loop and before capturing, and a result
delivered while isCapturing is set mutates no state. -/
theorem C1_amended :
    (∀ n : Nat, n ≤ 20 →
      (processResults initSelfieState (List.replicate n allCriteriaResult)).captureCount = 0) ∧
    (∀ n : Nat, 21 ≤ n →
      (processResults initSelfieState (List.replicate n allCriteriaResult)).captureCount = 1 ∧
      (processResults initSelfieState (List.replicate n allCriteriaResult)).isCapturing
        = true) ∧
    (∀ s : SelfieState, s.isCapturing = false → s.cameraPresent = true → s.isDisabled = false →
      handleTakePhotoActions s =
        [TakePhotoAction.setIsCapturing, TakePhotoAction.stopDetectionLoop,
         TakePhotoAction.captureAndNavigate, TakePhotoAction.disableButton] ∧
      (handleTakePhoto s).isCapturing = true) ∧
    (∀ (s : SelfieState) (r : FaceDetectionResult), s.isCapturing = true →
      handleFaceDetectionResult s r = s) := by
  refine ⟨by decide, fun n hn => ?_, fun s h1 h2 h3 => ?_, fun s r h => ?_⟩
  · rw [allTrue_captured n hn]
    exact ⟨rfl, rfl⟩
  · refine ⟨?_, ?_⟩ <;> simp [handleTakePhotoActions, handleTakePhoto, h1, h2, h3]
  · simp [handleFaceDetectionResult, h]

/-- C1 witness: the amended theorem at the concrete inputs 20, 21, the
initial state and the captured state. -/
theorem C1_amended_witness :
    (processResults initSelfieState (List.replicate 20 allCriteriaResult)).captureCount = 0 ∧
    (processResults initSelfieState (List.replicate 21 allCriteriaResult)).captureCount = 1 ∧
    handleTakePhotoActions initSelfieState =
      [TakePhotoAction.setIsCapturing, TakePhotoAction.stopDetectionLoop,
       TakePhotoAction.captureAndNavigate, TakePhotoAction.disableButton] ∧
    handleFaceDetectionResult capturedSelfieState neutralFaceResult = capturedSelfieState :=
  ⟨C1_amended.1 20 (by decide), (C1_amended.2.1 21 (by decide)).1,
   (C1_amended.2.2.1 initSelfieState rfl rfl rfl).1,
   C1_amended.2.2.2 capturedSelfieState neutralFaceResult rfl⟩

/-- C2 counterexample: after a single all-composite-true result the
longest all-true suffix has length 1 but stableFrames is 0, because the
handler still reads the reactive faceReady value computed from the state
before that result. -/
theorem C2_counterexample :
    longestTrueSuffixLen [allCriteriaResult] = 1 ∧
    (processResults initSelfieState [allCriteriaResult]).stableFrames = 0 := by
  decide

/-- C2 amended: before any capture, stableFrames after a sequence of
results equals the length of the longest all-composite-true suffix of
the sequence WITHOUT its last element: the hard-reset law holds shifted
by one delivery, because the reactive faceReady cache lags one frame.
In particular, with a false result injected at position 6 of an all-true
stream, the counter is 0 (not 1) after position 7 and becomes 1 only
after position 8. -/
theorem C2_amended :
    (∀ rs : List FaceDetectionResult,
      (processResults initSelfieState rs).isCapturing = false →
      (processResults initSelfieState rs).stableFrames = longestTrueSuffixLen rs.dropLast) ∧
    (processResults initSelfieState
      (List.replicate 5 allCriteriaResult ++ [neutralFaceResult] ++
        [allCriteriaResult])).stableFrames = 0 ∧
    (processResults initSelfieState
      (List.replicate 5 allCriteriaResult ++ [neutralFaceResult] ++
        List.replicate 2 allCriteriaResult)).stableFrames = 1 := by
  exact ⟨fun rs h => (processResults_lag_law rs h).1, by decide, by decide⟩

/-- C2 witness: the amended law at the concrete two-element all-true
sequence, whose run does not capture. -/
theorem C2_amended_witness :
    (processResults initSelfieState [allCriteriaResult, allCriteriaResult]).stableFrames
      = longestTrueSuffixLen [allCriteriaResult] :=
  C2_amended.1 [allCriteriaResult, allCriteriaResult] (by decide)

/-- C6 counterexample: a library exception yields the neutral result,
whose composite is false, yet delivering it right after a good frame
still increments the stability counter from 0 to 1 (the handler reads
the cached composite of the previous good frame), so the counter does
advance on a failed frame. -/
theorem C6_counterexample :
    detectFace true { readyState := 4, videoWidth := 640, videoHeight := 480 }
        (Except.error ()) (2 / 25) = neutralFaceResult ∧
    (processResults initSelfieState [allCriteriaResult]).stableFrames = 0 ∧
    (processResults initSelfieState [allCriteriaResult, neutralFaceResult]).stableFrames
      = 1 := by
  refine ⟨rfl, by decide, by decide⟩

/-- C6 amended: detectFace and detectDocument map a library exception to
the neutral all-false result (so no failure escapes and the loop is
never terminated), the composite predicate of a neutral result is false,
and delivering it forces the cached predicate to false so the counter is
reset at the NEXT delivered result; due to the one-frame reactive lag
the counter may still increment once on the failed frame itself when the
preceding frame was composite-true. -/
theorem C6_amended :
    (∀ (modelsLoaded : Bool) (video : VideoElement) (tol : ℚ),
      detectFace modelsLoaded video (Except.error ()) tol = neutralFaceResult) ∧
    (∀ source : DocumentSource, detectDocument source (Except.error ())
      = neutralDocumentResult) ∧
    faceComposite neutralFaceResult = false ∧
    (neutralDocumentResult.detected && neutralDocumentResult.confidence) = false ∧
    (∀ s : SelfieState, s.isCapturing = false →
      (deliverResult s neutralFaceResult).faceReady = false) ∧
    (∀ (s : SelfieState) (r : FaceDetectionResult),
      s.faceReady = false → s.isCapturing = false →
      (deliverResult s r).stableFrames = 0) := by
  refine ⟨fun ml v tol => ?_, fun source => ?_, rfl, rfl, fun s h => ?_, fun s r h1 h2 => ?_⟩
  · cases ml with
    | false => rfl
    | true => by_cases h : v.readyState ≠ 4 <;> simp [detectFace, h]
  · cases source with
    | video rs w hh => by_cases h : rs ≠ 4 <;> simp [detectDocument, detectDocumentFromScan, h]
    | canvasOrImage w hh => rfl
  · rw [deliverResult_faceReady s neutralFaceResult h]
    rfl
  · exact (deliverResult_reset s r h2 h1).1

/-- C6 witness: the amended theorem at a ready video, a live video
source, the initial state and a state with a stale false cache. -/
theorem C6_amended_witness :
    detectFace true { readyState := 4, videoWidth := 640, videoHeight := 480 }
        (Except.error ()) (2 / 25) = neutralFaceResult ∧
    detectDocument (.video 4 100 100) (Except.error ()) = neutralDocumentResult ∧
    (deliverResult initSelfieState neutralFaceResult).faceReady = false ∧
    (deliverResult initSelfieState allCriteriaResult).stableFrames = 0 :=
  ⟨C6_amended.1 true { readyState := 4, videoWidth := 640, videoHeight := 480 } (2 / 25),
   C6_amended.2.1 (.video 4 100 100),
   C6_amended.2.2.2.2.1 initSelfieState rfl,
   C6_amended.2.2.2.2.2 initSelfieState allCriteriaResult rfl rfl⟩

/-- C9: the countdown arithmetic of Selfie.svelte matches the contract:
REQUIRED_STABLE_FRAMES is 20 and equals the exact (hence also the
rounded-up) value of stableDurationSeconds times 1000 over intervalMs;
for every counter value below the threshold the computed
secondsRemaining is the ceiling of framesRemaining over framesPerSecond
(characterised by the two ceiling inequalities); at 15 consecutive
successes the formula gives ceil(5 / 4) = 2, and the model state after
15 all-true results indeed displays a countdown of 2. -/
theorem C9_countdown_arithmetic :
    REQUIRED_STABLE_FRAMES = 20 ∧
    FRAMES_PER_SECOND = 4 ∧
    REQUIRED_STABLE_FRAMES * DETECTION_INTERVAL_MS = COUNTDOWN_SECONDS * 1000 ∧
    (REQUIRED_STABLE_FRAMES : ℚ) =
      (COUNTDOWN_SECONDS : ℚ) * 1000 / (DETECTION_INTERVAL_MS : ℚ) ∧
    (∀ stable : Nat, stable < REQUIRED_STABLE_FRAMES →
      (FRAMES_PER_SECOND : Int) *
          (jsMathCeilDiv ((REQUIRED_STABLE_FRAMES : Int) - stable)
            (FRAMES_PER_SECOND : Int) - 1)
        < (REQUIRED_STABLE_FRAMES : Int) - stable ∧
      (REQUIRED_STABLE_FRAMES : Int) - stable
        ≤ (FRAMES_PER_SECOND : Int) *
            jsMathCeilDiv ((REQUIRED_STABLE_FRAMES : Int) - stable)
              (FRAMES_PER_SECOND : Int)) ∧
    jsMathCeilDiv ((REQUIRED_STABLE_FRAMES : Int) - 15) (FRAMES_PER_SECOND : Int) = 2 ∧
    (processResults initSelfieState (List.replicate 15 allCriteriaResult)).countdown = 2 := by
  refine ⟨rfl, rfl, rfl, ?_, by decide, by decide, by decide⟩
  norm_num [REQUIRED_STABLE_FRAMES, COUNTDOWN_SECONDS, DETECTION_INTERVAL_MS,
    FRAMES_PER_SECOND]

/-- C9 witness: the ceiling characterisation at 15 consecutive
successes. -/
theorem C9_countdown_arithmetic_witness :
    (FRAMES_PER_SECOND : Int) *
        (jsMathCeilDiv ((REQUIRED_STABLE_FRAMES : Int) - 15) (FRAMES_PER_SECOND : Int) - 1)
      < (REQUIRED_STABLE_FRAMES : Int) - 15 ∧
    (REQUIRED_STABLE_FRAMES : Int) - 15
      ≤ (FRAMES_PER_SECOND : Int) *
          jsMathCeilDiv ((REQUIRED_STABLE_FRAMES : Int) - 15) (FRAMES_PER_SECOND : Int) :=
  C9_countdown_arithmetic.2.2.2.2.1 15 (by decide)

end KycPackage
